import Mathlib

/-!
Shallow embedding of `src/app.py`, a Flask CRUD application for auto-parts
inventory (login, part catalog, stock movements).  Route handlers are modelled
as pure functions from the session marker, the submitted form data, the
connection/query outcome of the environment, and the database state to a
result record (new database state, flash messages, HTTP response).

Modelling conventions:
- MySQL tables become Lean lists inside a `DB` record; single SQL statements
  become list operations.
- Python `int(...)` / `float(...)` on form strings become `pyInt?` / `pyFloat?`
  returning `Option`; a `ValueError` escaping a handler becomes `Except.error`.
  `pyFloat?` maps decimal literals (optional sign, digits, fraction, exponent)
  to exact rationals; the special float spellings (inf/nan, underscores) are
  outside the model.
- `get_db_connection` failure and `pymysql.Error` raised by the first executed
  statement of a handler's try-block are environment inputs (`ConnResult`,
  `Option String`).
- `flash(msg, cat)` accumulates `Flash` records in submission order.
- `str.upper()` is modelled by `pyUpper` (they agree on ASCII input, which
  covers the direction strings the claims are about).
- Form fields read with `request.form[...]` are modelled as always-present
  record fields (a missing field is an HTTP 400 before the handler body runs);
  `request.form.get(...)` becomes an `Option String` field.
-/

namespace SAEP

/-- ASCII whitespace stripped by Python `int(...)`/`float(...)`. -/
def isPyWs (c : Char) : Bool :=
  c == ' ' || c == '\t' || c == '\n' || c == '\r' || c == '\x0b' || c == '\x0c'

/-- Drop leading whitespace. -/
def dropWs : List Char → List Char
  | [] => []
  | c :: cs => if isPyWs c then dropWs cs else c :: cs

/-- Strip leading and trailing whitespace (Python `str.strip()` on ASCII). -/
def trimChars (cs : List Char) : List Char :=
  (dropWs (dropWs cs.reverse).reverse)

/-- Python `str.upper()`, modelled character-wise (agrees on ASCII). -/
def pyUpper (s : String) : String :=
  String.mk (s.data.map Char.toUpper)

/-- Accumulate the value of a digit string; `none` if a non-digit occurs. -/
def parseDigitsAux : List Char → Nat → Option Nat
  | [], acc => some acc
  | c :: cs, acc =>
    if c.isDigit then parseDigitsAux cs (acc * 10 + (c.toNat - 48)) else none

/-- Value of a non-empty all-digit character list, else `none`. -/
def parseDigits : List Char → Option Nat
  | [] => none
  | c :: cs => parseDigitsAux (c :: cs) 0

/-- Model of Python `int(s)` for a base-10 string: optional surrounding
whitespace, optional sign, then at least one digit. -/
def pyInt? (s : String) : Option Int :=
  match trimChars s.data with
  | '+' :: cs => (parseDigits cs).map Int.ofNat
  | '-' :: cs => (parseDigits cs).map (fun n => -(n : Int))
  | cs => (parseDigits cs).map Int.ofNat

/-- Split a character list into its leading run of digits and the rest. -/
def takeDigits : List Char → List Char × List Char
  | [] => ([], [])
  | c :: cs =>
    if c.isDigit then
      let p := takeDigits cs
      (c :: p.1, p.2)
    else ([], c :: cs)

/-- Numeric value of a digit list (most significant first). -/
def digitsToNat (cs : List Char) : Nat :=
  cs.foldl (fun a c => a * 10 + (c.toNat - 48)) 0

/-- Mantissa of a float literal: `d+`, `d+.d*` or `.d+`; returns its exact
rational value and the unconsumed rest. -/
def parseMantissa (cs : List Char) : Option (ℚ × List Char) :=
  let ip := takeDigits cs
  match ip.2 with
  | '.' :: rest2 =>
    let fp := takeDigits rest2
    if ip.1.isEmpty && fp.1.isEmpty then none
    else
      some ((digitsToNat ip.1 : ℚ) + (digitsToNat fp.1 : ℚ) / ((10 : ℚ) ^ fp.1.length), fp.2)
  | _ =>
    if ip.1.isEmpty then none else some ((digitsToNat ip.1 : ℚ), ip.2)

/-- Scale factor `10 ^ e` for a non-empty digit exponent. -/
def expDigits (cs : List Char) : Option ℚ :=
  match cs with
  | [] => none
  | _ => if cs.all Char.isDigit then some ((10 : ℚ) ^ digitsToNat cs) else none

/-- Exponent after the `e`, with optional sign. -/
def parseSignedExp : List Char → Option ℚ
  | '+' :: cs => expDigits cs
  | '-' :: cs => (expDigits cs).map (fun q => q⁻¹)
  | cs => expDigits cs

/-- Optional exponent part of a float literal; must consume the whole rest. -/
def parseExp : List Char → Option ℚ
  | [] => some 1
  | 'e' :: cs => parseSignedExp cs
  | 'E' :: cs => parseSignedExp cs
  | _ => none

/-- Unsigned float literal body: mantissa then optional exponent. -/
def pyFloatAux (cs : List Char) : Option ℚ := do
  let m ← parseMantissa cs
  let e ← parseExp m.2
  pure (m.1 * e)

/-- Model of Python `float(s)` on decimal literals: optional surrounding
whitespace, optional sign, mantissa, optional exponent; exact rational value. -/
def pyFloat? (s : String) : Option ℚ :=
  match trimChars s.data with
  | '+' :: cs => pyFloatAux cs
  | '-' :: cs => (pyFloatAux cs).map Neg.neg
  | cs => pyFloatAux cs

/-- Row of table `usuario` (ID_USUARIO, EMAIL, SENHA, NOME). -/
structure Usuario where
  idUsuario : Nat
  email : String
  senha : String
  nome : String
deriving Repr, DecidableEq

/-- Row of table `autopeca` (ID_PECA, NOME_PECA, NUM_SERIAL, ESTOQUE,
ESTOQUE_MINIMO, PRECO, DESCRICAO, COMPATIBILIDADE).  PRECO is DECIMAL,
modelled as an exact rational. -/
structure Autopeca where
  idPeca : Nat
  nomePeca : String
  numSerial : String
  estoque : Int
  estoqueMinimo : Int
  preco : ℚ
  descricao : String
  compatibilidade : String
deriving Repr, DecidableEq

/-- Row of table `movimentacoes` (ID_USUARIO, ID_PECA, DATA_MOVI, QUANTIDADE,
TIPO_MOVI).  Its auto-increment primary key is never read by the application
and is not modelled.  DATA_MOVI is stored as the submitted string. -/
structure Movimentacao where
  idUsuario : Nat
  idPeca : Int
  dataMovi : String
  quantidade : Int
  tipoMovi : String
deriving Repr, DecidableEq

/-- Database state: the three tables plus the auto-increment counter of
`autopeca`. -/
structure DB where
  usuarios : List Usuario
  autopecas : List Autopeca
  movimentacoes : List Movimentacao
  nextPecaId : Nat
deriving Repr, DecidableEq

/-- One `flash(message, category)` call. -/
structure Flash where
  message : String
  category : String
deriving Repr, DecidableEq

/-- Environment outcome of `pymysql.connect(**DB_CONFIG)`: success, a
`pymysql.Error`, or any other exception, each with its message text. -/
inductive ConnResult where
  | ok : ConnResult
  | mysqlError (e : String) : ConnResult
  | generalError (e : String) : ConnResult
deriving Repr, DecidableEq

/-- `get_db_connection` (app.py lines 68-107): returns a handle on success,
`None` plus a flashed error otherwise. -/
def get_db_connection : ConnResult → Option Unit × List Flash
  | .ok => (some (), [])
  | .mysqlError e =>
    (none, [⟨"Erro ao conectar com o banco de dados MySQL: " ++ e, "error"⟩])
  | .generalError e =>
    (none, [⟨"Erro geral ao conectar: " ++ e, "error"⟩])

/-- Redirect targets used by the handlers (`url_for` names). -/
inductive Target where
  | login : Target
  | dashboard : Target
  | autopecas : Target
  | estoque : Target
  | editAutopeca (id : Nat) : Target
deriving Repr, DecidableEq

/-- The HTTP response a handler produces: a redirect or a rendered template
with the data passed to it. -/
inductive Response where
  | redirect (t : Target) : Response
  | renderDashboard : Response
  | renderAutopecas (listed : List Autopeca) (search : String) : Response
  | renderEdit (p : Autopeca) : Response
  | renderEstoque (listed : List Autopeca) (movs : List Movimentacao) : Response
deriving Repr, DecidableEq

/-- Result of one handler invocation: the database afterwards, the flash
messages emitted (in order), the response, and whether `get_db_connection`
was invoked at all during the request. -/
structure HResult where
  db : DB
  flashes : List Flash
  response : Response
  connAttempted : Bool
deriving Repr, DecidableEq

/-- A Python exception escaping a handler uncaught. -/
inductive PyExn where
  | valueError (arg : String) : PyExn
deriving Repr, DecidableEq

/-- Boolean prefix test on character lists. -/
def leadsWith : List Char → List Char → Bool
  | [], _ => true
  | _ :: _, [] => false
  | c :: cs, d :: ds => c == d && leadsWith cs ds

/-- Boolean substring test: does `needle` occur contiguously in the second
list?  Models SQL `LIKE concat(pc, term, pc)` for a term without wildcard
characters. -/
def containsSub (needle : List Char) : List Char → Bool
  | [] => leadsWith needle []
  | d :: ds => leadsWith needle (d :: ds) || containsSub needle ds

/-- LIKE filter of the list route (app.py lines 269-273): rows whose
NOME_PECA or NUM_SERIAL contains the search term as a substring. -/
def likeFilter (search : String) (ps : List Autopeca) : List Autopeca :=
  ps.filter (fun p =>
    containsSub search.data p.nomePeca.data || containsSub search.data p.numSerial.data)

/-- Insert one row into a list sorted by NOME_PECA ascending. -/
def insertByNome (p : Autopeca) : List Autopeca → List Autopeca
  | [] => [p]
  | q :: qs =>
    if p.nomePeca ≤ q.nomePeca then p :: q :: qs else q :: insertByNome p qs

/-- ORDER BY NOME_PECA ascending, modelled as an insertion sort. -/
def orderByNome (ps : List Autopeca) : List Autopeca :=
  ps.foldr insertByNome []

/-- Insert one movement into a list sorted by DATA_MOVI descending. -/
def insertByDataDesc (m : Movimentacao) : List Movimentacao → List Movimentacao
  | [] => [m]
  | n :: ns =>
    if n.dataMovi ≤ m.dataMovi then m :: n :: ns else n :: insertByDataDesc m ns

/-- The movement-history query of the stock route (app.py lines 563-570):
INNER JOIN with `autopeca` and `usuario`, ORDER BY DATA_MOVI DESC, LIMIT 10.
The joined display columns (part name, user name) are not modelled, only
which rows survive the join and their order. -/
def lastTenMovimentacoes (db : DB) : List Movimentacao :=
  (((db.movimentacoes.filter (fun m =>
        db.autopecas.any (fun p => (p.idPeca : Int) == m.idPeca) &&
        db.usuarios.any (fun u => u.idUsuario == m.idUsuario))).foldr
      insertByDataDesc []).take 10)

/-- `dashboard` (app.py lines 213-230): session guard, then render. -/
def dashboard (sess : Option Nat) (db : DB) : HResult :=
  match sess with
  | none => ⟨db, [], .redirect .login, false⟩
  | some _ => ⟨db, [], .renderDashboard, false⟩

/-- `autopecas` (app.py lines 232-293): session guard; connect; on success
run the (optionally filtered) SELECT ordered by name; a query error is
flashed and leaves the list empty; always renders the list template.
`qErr` is the environment outcome of the SELECT (`some e` = `pymysql.Error`
with message `e`). -/
def autopecas (sess : Option Nat) (search : String) (cr : ConnResult)
    (qErr : Option String) (db : DB) : HResult :=
  match sess with
  | none => ⟨db, [], .redirect .login, false⟩
  | some _ =>
    match get_db_connection cr with
    | (none, fl) => ⟨db, fl, .renderAutopecas [] search, true⟩
    | (some _, fl) =>
      match qErr with
      | some e =>
        ⟨db, fl ++ [⟨"Erro ao buscar autopeças: " ++ e, "error"⟩],
          .renderAutopecas [] search, true⟩
      | none =>
        let listed :=
          if search ≠ "" then orderByNome (likeFilter search db.autopecas)
          else orderByNome db.autopecas
        ⟨db, fl, .renderAutopecas listed search, true⟩

/-- Form fields of the add/update part routes (`request.form[...]`). -/
structure AutopecaForm where
  nome_peca : String
  descricao : String
  num_serie : String
  compatibilidade : String
  estoque : String
  estoque_minimo : String
  preco : String
deriving Repr, DecidableEq

/-- `add_autopeca` (app.py lines 295-376): session guard; parse the numeric
fields (any `ValueError` flashes and redirects to the list); business
validations in order (stock ≥ 0, minimum ≥ 0, price > 0), each redirecting
to the list; then connect and INSERT.  `qErr` is the outcome of the INSERT. -/
def add_autopeca (sess : Option Nat) (f : AutopecaForm) (cr : ConnResult)
    (qErr : Option String) (db : DB) : HResult :=
  match sess with
  | none => ⟨db, [], .redirect .login, false⟩
  | some _ =>
    match pyInt? f.estoque, pyInt? f.estoque_minimo, pyFloat? f.preco with
    | some estoque, some estoque_minimo, some preco =>
      if estoque < 0 then
        ⟨db, [⟨"Estoque não pode ser negativo", "error"⟩], .redirect .autopecas, false⟩
      else if estoque_minimo < 0 then
        ⟨db, [⟨"Estoque mínimo não pode ser negativo", "error"⟩], .redirect .autopecas, false⟩
      else if preco ≤ 0 then
        ⟨db, [⟨"Preço deve ser maior que zero", "error"⟩], .redirect .autopecas, false⟩
      else
        match get_db_connection cr with
        | (none, fl) => ⟨db, fl, .redirect .autopecas, true⟩
        | (some _, fl) =>
          match qErr with
          | some e =>
            ⟨db, fl ++ [⟨"Erro ao adicionar autopeça: " ++ e, "error"⟩],
              .redirect .autopecas, true⟩
          | none =>
            let p : Autopeca :=
              ⟨db.nextPecaId, f.nome_peca, f.num_serie, estoque, estoque_minimo,
                preco, f.descricao, f.compatibilidade⟩
            ⟨⟨db.usuarios, db.autopecas ++ [p], db.movimentacoes, db.nextPecaId + 1⟩,
              fl ++ [⟨"Autopeça adicionada com sucesso!", "success"⟩],
              .redirect .autopecas, true⟩
    | _, _, _ =>
      ⟨db, [⟨"Valores numéricos inválidos. Verifique estoque e preço.", "error"⟩],
        .redirect .autopecas, false⟩

/-- `edit_autopeca` (app.py lines 378-422): session guard; connect and SELECT
the row; if the connection or query failed the row variable stays `None`; a
missing row flashes "not found" and redirects to the list, otherwise the edit
form is rendered. -/
def edit_autopeca (sess : Option Nat) (id : Nat) (cr : ConnResult)
    (qErr : Option String) (db : DB) : HResult :=
  match sess with
  | none => ⟨db, [], .redirect .login, false⟩
  | some _ =>
    match get_db_connection cr with
    | (none, fl) =>
      ⟨db, fl ++ [⟨"Autopeça não encontrada!", "error"⟩], .redirect .autopecas, true⟩
    | (some _, fl) =>
      match qErr with
      | some e =>
        ⟨db, fl ++ [⟨"Erro ao buscar autopeça: " ++ e, "error"⟩,
            ⟨"Autopeça não encontrada!", "error"⟩], .redirect .autopecas, true⟩
      | none =>
        match db.autopecas.find? (fun p => p.idPeca == id) with
        | none =>
          ⟨db, fl ++ [⟨"Autopeça não encontrada!", "error"⟩], .redirect .autopecas, true⟩
        | some p => ⟨db, fl, .renderEdit p, true⟩

/-- `update_autopeca` (app.py lines 424-488): like `add_autopeca` but
validation failures redirect to the edit form of `id`, and the success path
runs UPDATE ... WHERE ID_PECA = id (overwriting every field of each matching
row; zero matching rows still flash success). -/
def update_autopeca (sess : Option Nat) (id : Nat) (f : AutopecaForm)
    (cr : ConnResult) (qErr : Option String) (db : DB) : HResult :=
  match sess with
  | none => ⟨db, [], .redirect .login, false⟩
  | some _ =>
    match pyInt? f.estoque, pyInt? f.estoque_minimo, pyFloat? f.preco with
    | some estoque, some estoque_minimo, some preco =>
      if estoque < 0 then
        ⟨db, [⟨"Estoque não pode ser negativo", "error"⟩], .redirect (.editAutopeca id), false⟩
      else if estoque_minimo < 0 then
        ⟨db, [⟨"Estoque mínimo não pode ser negativo", "error"⟩], .redirect (.editAutopeca id), false⟩
      else if preco ≤ 0 then
        ⟨db, [⟨"Preço deve ser maior que zero", "error"⟩], .redirect (.editAutopeca id), false⟩
      else
        match get_db_connection cr with
        | (none, fl) => ⟨db, fl, .redirect .autopecas, true⟩
        | (some _, fl) =>
          match qErr with
          | some e =>
            ⟨db, fl ++ [⟨"Erro ao atualizar autopeça: " ++ e, "error"⟩],
              .redirect .autopecas, true⟩
          | none =>
            let upd := db.autopecas.map (fun p =>
              if p.idPeca == id then
                ⟨p.idPeca, f.nome_peca, f.num_serie, estoque, estoque_minimo,
                  preco, f.descricao, f.compatibilidade⟩
              else p)
            ⟨⟨db.usuarios, upd, db.movimentacoes, db.nextPecaId⟩,
              fl ++ [⟨"Autopeça atualizada com sucesso!", "success"⟩],
              .redirect .autopecas, true⟩
    | _, _, _ =>
      ⟨db, [⟨"Valores numéricos inválidos!", "error"⟩],
        .redirect (.editAutopeca id), false⟩

/-- `delete_autopeca` (app.py lines 490-530): session guard; connect; DELETE
WHERE ID_PECA = id (zero matching rows still flash success); a query error
(e.g. referential integrity) is flashed and deletes nothing. -/
def delete_autopeca (sess : Option Nat) (id : Nat) (cr : ConnResult)
    (qErr : Option String) (db : DB) : HResult :=
  match sess with
  | none => ⟨db, [], .redirect .login, false⟩
  | some _ =>
    match get_db_connection cr with
    | (none, fl) => ⟨db, fl, .redirect .autopecas, true⟩
    | (some _, fl) =>
      match qErr with
      | some e =>
        ⟨db, fl ++ [⟨"Erro ao excluir autopeça: " ++ e, "error"⟩],
          .redirect .autopecas, true⟩
      | none =>
        ⟨⟨db.usuarios, db.autopecas.filter (fun p => ¬ p.idPeca == id),
            db.movimentacoes, db.nextPecaId⟩,
          fl ++ [⟨"Autopeça excluída com sucesso!", "success"⟩],
          .redirect .autopecas, true⟩

/-- `estoque` (app.py lines 532-581): session guard; connect; SELECT all parts
and the ten most recent movements; errors leave both lists empty; always
renders the stock template. -/
def estoque (sess : Option Nat) (cr : ConnResult) (qErr : Option String)
    (db : DB) : HResult :=
  match sess with
  | none => ⟨db, [], .redirect .login, false⟩
  | some _ =>
    match get_db_connection cr with
    | (none, fl) => ⟨db, fl, .renderEstoque [] [], true⟩
    | (some _, fl) =>
      match qErr with
      | some e =>
        ⟨db, fl ++ [⟨"Erro ao carregar dados de estoque: " ++ e, "error"⟩],
          .renderEstoque [] [], true⟩
      | none =>
        ⟨db, fl, .renderEstoque (orderByNome db.autopecas) (lastTenMovimentacoes db), true⟩

/-- Form fields of the movement route; `data` uses `request.form.get` and may
be absent. -/
structure MovForm where
  id_peca : String
  quantidade : String
  tipo_movimentacao : String
  data : Option String
deriving Repr, DecidableEq

/-- The movement timestamp (app.py lines 607-610): the submitted string, or
the current time when the field is absent or empty (Python `if not data`). -/
def movData (f : MovForm) (now : String) : String :=
  match f.data with
  | none => now
  | some d => if d = "" then now else d

/-- The two write statements and the final flash of `add_movimentacao`
(app.py lines 636-653): INSERT the movement row, UPDATE the part's stock to
`novo`, then flash a low-stock warning when `novo` is strictly below the
fetched row's minimum, a plain success message otherwise. -/
def movWrite (userId : Nat) (id_peca : Int) (data : String) (quantidade : Int)
    (tipoUp : String) (pc : Autopeca) (novo : Int) (fl : List Flash)
    (db : DB) : HResult :=
  let db' : DB :=
    ⟨db.usuarios,
      db.autopecas.map (fun p =>
        if (p.idPeca : Int) == id_peca then
          ⟨p.idPeca, p.nomePeca, p.numSerial, novo, p.estoqueMinimo, p.preco,
            p.descricao, p.compatibilidade⟩
        else p),
      db.movimentacoes ++ [⟨userId, id_peca, data, quantidade, tipoUp⟩],
      db.nextPecaId⟩
  if novo < pc.estoqueMinimo then
    ⟨db', fl ++ [⟨"ALERTA: Estoque da peça \"" ++ pc.nomePeca ++
        "\" está abaixo do mínimo! Estoque atual: " ++ toString novo ++
        ", Mínimo: " ++ toString pc.estoqueMinimo, "warning"⟩],
      .redirect .estoque, true⟩
  else
    ⟨db', fl ++ [⟨"Movimentação registrada com sucesso!", "success"⟩],
      .redirect .estoque, true⟩

/-- `add_movimentacao` (app.py lines 583-661): session guard; then
`int(request.form[...])` on the part id and the quantity OUTSIDE any
try/except — a parse failure raises `ValueError` out of the handler
(`Except.error`); timestamp defaulting; connect; fetch the part (absent →
"not found"); ENTRADA (case-insensitive) adds the quantity, any other
direction subtracts it and aborts with "insufficient stock" if the result
would be negative; otherwise the movement is inserted and the stock updated.
`qErr` is the outcome of the first statement executed inside the try. -/
def add_movimentacao (sess : Option Nat) (f : MovForm) (now : String)
    (cr : ConnResult) (qErr : Option String) (db : DB) : Except PyExn HResult :=
  match sess with
  | none => .ok ⟨db, [], .redirect .login, false⟩
  | some userId =>
    match pyInt? f.id_peca with
    | none => .error (.valueError f.id_peca)
    | some id_peca =>
      match pyInt? f.quantidade with
      | none => .error (.valueError f.quantidade)
      | some quantidade =>
        let data := movData f now
        match get_db_connection cr with
        | (none, fl) => .ok ⟨db, fl, .redirect .estoque, true⟩
        | (some _, fl) =>
          match qErr with
          | some e =>
            .ok ⟨db, fl ++ [⟨"Erro ao registrar movimentação: " ++ e, "error"⟩],
              .redirect .estoque, true⟩
          | none =>
            match db.autopecas.find? (fun p => (p.idPeca : Int) == id_peca) with
            | none =>
              .ok ⟨db, fl ++ [⟨"Autopeça não encontrada!", "error"⟩],
                .redirect .estoque, true⟩
            | some pc =>
              let tipoUp := pyUpper f.tipo_movimentacao
              if tipoUp = "ENTRADA" then
                .ok (movWrite userId id_peca data quantidade tipoUp pc
                  (pc.estoque + quantidade) fl db)
              else
                if pc.estoque - quantidade < 0 then
                  .ok ⟨db, fl ++ [⟨"Estoque insuficiente para esta movimentação!", "error"⟩],
                    .redirect .estoque, true⟩
                else
                  .ok (movWrite userId id_peca data quantidade tipoUp pc
                    (pc.estoque - quantidade) fl db)

/-! Concrete fixtures used by witnesses and counterexamples. -/

/-- The test user provisioned in the database setup script. -/
def adminUser : Usuario := ⟨1, "admin@saep.com", "admin123", "Administrador"⟩

/-- A part with empty stock and a minimum threshold of 3. -/
def pecaFiltro : Autopeca := ⟨1, "Filtro de Oleo", "SN-001", 0, 3, 10, "", ""⟩

/-- Database with one user and `pecaFiltro`. -/
def dbFiltro : DB := ⟨[adminUser], [pecaFiltro], [], 2⟩

/-- A part with stock 10 and a minimum threshold of 5. -/
def pecaVela : Autopeca := ⟨1, "Vela", "SN-002", 10, 5, 10, "", ""⟩

/-- Database with one user and `pecaVela`. -/
def dbVela : DB := ⟨[adminUser], [pecaVela], [], 2⟩

/-! Theorems settling the claims. -/

/-- Write-path evaluation of `add_movimentacao`: with a live connection, no
query error, the part found, and either an inbound direction or sufficient
stock for an outbound one, the handler performs the two writes and the final
flash described by `movWrite`. -/
theorem add_movimentacao_write (u : Nat) (f : MovForm) (now : String) (db : DB)
    (i q : Int) (pc : Autopeca)
    (hi : pyInt? f.id_peca = some i)
    (hq : pyInt? f.quantidade = some q)
    (hfind : db.autopecas.find? (fun p => (p.idPeca : Int) == i) = some pc)
    (hok : pyUpper f.tipo_movimentacao = "ENTRADA" ∨ 0 ≤ pc.estoque - q) :
    add_movimentacao (some u) f now .ok none db =
      .ok (movWrite u i (movData f now) q (pyUpper f.tipo_movimentacao) pc
        (if pyUpper f.tipo_movimentacao = "ENTRADA" then pc.estoque + q
         else pc.estoque - q) [] db) := by
  unfold add_movimentacao
  simp only [hi, hq, get_db_connection, hfind]
  by_cases h : pyUpper f.tipo_movimentacao = "ENTRADA"
  · simp only [if_pos h]
  · rcases hok with hok | hok
    · exact absurd hok h
    · rw [if_neg h, if_neg (by omega), if_neg h]

/-- C7: with no authenticated-user marker in the session, every protected
route handler immediately returns a redirect to the login route, leaves the
database unchanged, flashes nothing, and never invokes the connection
factory (`connAttempted = false`). -/
theorem C7_session_guard (db : DB) (search : String) (id : Nat)
    (f : AutopecaForm) (mf : MovForm) (now : String) (cr : ConnResult)
    (qErr : Option String) :
    dashboard none db = ⟨db, [], .redirect .login, false⟩ ∧
    autopecas none search cr qErr db = ⟨db, [], .redirect .login, false⟩ ∧
    add_autopeca none f cr qErr db = ⟨db, [], .redirect .login, false⟩ ∧
    edit_autopeca none id cr qErr db = ⟨db, [], .redirect .login, false⟩ ∧
    update_autopeca none id f cr qErr db = ⟨db, [], .redirect .login, false⟩ ∧
    delete_autopeca none id cr qErr db = ⟨db, [], .redirect .login, false⟩ ∧
    estoque none cr qErr db = ⟨db, [], .redirect .login, false⟩ ∧
    add_movimentacao none mf now cr qErr db = .ok ⟨db, [], .redirect .login, false⟩ :=
  ⟨rfl, rfl, rfl, rfl, rfl, rfl, rfl, rfl⟩

/-- C9: when the connection factory fails (either failure kind), the list
route still renders, with an empty part list and exactly the connection
error flashed, regardless of the search string and of the database
contents. -/
theorem C9_conn_failure_empty_list (u : Nat) (search e : String)
    (qErr : Option String) (db : DB) :
    autopecas (some u) search (.mysqlError e) qErr db =
      ⟨db, [⟨"Erro ao conectar com o banco de dados MySQL: " ++ e, "error"⟩],
        .renderAutopecas [] search, true⟩ ∧
    autopecas (some u) search (.generalError e) qErr db =
      ⟨db, [⟨"Erro geral ao conectar: " ++ e, "error"⟩],
        .renderAutopecas [] search, true⟩ :=
  ⟨rfl, rfl⟩

/-- C1 counterexample: an inbound (ENTRADA) movement with a negative submitted
quantity passes every check and persists a negative stock: on a part with
stock 0, quantity "-5" with direction "ENTRADA" completes successfully and
stores stock -5. -/
theorem C1_counterexample :
    (add_movimentacao (some 1) ⟨"1", "-5", "ENTRADA", some "2025-01-01 00:00:00"⟩
        "2025-01-02 00:00:00" .ok none dbFiltro).toOption.map
      (fun r => r.db.autopecas.map Autopeca.estoque) = some [-5] := by
  rfl

/-- C2: an outbound movement (any direction other than case-insensitive
ENTRADA) whose quantity exceeds the part's current stock aborts with the
"insufficient stock" error flashed before either write: the database —
movement table and stock field included — is returned unchanged. -/
theorem C2_insufficient_stock_aborts (u : Nat) (f : MovForm) (now : String)
    (db : DB) (i q : Int) (pc : Autopeca)
    (hi : pyInt? f.id_peca = some i)
    (hq : pyInt? f.quantidade = some q)
    (hfind : db.autopecas.find? (fun p => (p.idPeca : Int) == i) = some pc)
    (hdir : pyUpper f.tipo_movimentacao ≠ "ENTRADA")
    (hgt : pc.estoque < q) :
    add_movimentacao (some u) f now .ok none db =
      .ok ⟨db, [⟨"Estoque insuficiente para esta movimentação!", "error"⟩],
        .redirect .estoque, true⟩ := by
  unfold add_movimentacao
  simp only [hi, hq, get_db_connection, hfind]
  rw [if_neg hdir, if_pos (by omega)]
  simp

/-- C2 witness: on a part with stock 10, an outbound movement of 20 aborts
with the insufficient-stock flash and an unchanged database. -/
theorem C2_insufficient_stock_aborts_witness :
    add_movimentacao (some 1) ⟨"1", "20", "SAIDA", none⟩
        "2025-01-02 00:00:00" .ok none dbVela =
      .ok ⟨dbVela, [⟨"Estoque insuficiente para esta movimentação!", "error"⟩],
        .redirect .estoque, true⟩ :=
  C2_insufficient_stock_aborts 1 ⟨"1", "20", "SAIDA", none⟩ "2025-01-02 00:00:00"
    dbVela 1 20 pecaVela (by rfl) (by rfl) (by rfl) (by decide) (by decide)

/-- C8: for an identifier matching no part, the read-for-edit route flashes
"not found" and redirects to the list, and the delete route redirects to the
list leaving the database unchanged — under every connection/query outcome
(the model is total, so neither raises). -/
theorem C8_missing_id_noop (u id : Nat) (cr : ConnResult) (qErr : Option String)
    (db : DB) (habs : ∀ p ∈ db.autopecas, p.idPeca ≠ id) :
    (edit_autopeca (some u) id cr qErr db).db = db ∧
    (edit_autopeca (some u) id cr qErr db).response = .redirect .autopecas ∧
    ⟨"Autopeça não encontrada!", "error"⟩ ∈ (edit_autopeca (some u) id cr qErr db).flashes ∧
    (delete_autopeca (some u) id cr qErr db).db = db ∧
    (delete_autopeca (some u) id cr qErr db).response = .redirect .autopecas := by
  have hfind : db.autopecas.find? (fun p => p.idPeca == id) = none := by
    rw [List.find?_eq_none]
    intro p hp
    simpa using habs p hp
  have hfilter : db.autopecas.filter (fun p => !decide (p.idPeca = id)) = db.autopecas := by
    rw [List.filter_eq_self]
    intro p hp
    simpa using habs p hp
  unfold edit_autopeca delete_autopeca
  cases cr <;> cases qErr <;>
    simp [get_db_connection, hfind, hfilter]

/-- C8 witness: id 99 matches no part of `dbVela`; editing flashes "not
found" and redirects to the list, deleting redirects to the list with the
database unchanged. -/
theorem C8_missing_id_noop_witness :
    (edit_autopeca (some 1) 99 .ok none dbVela).db = dbVela ∧
    (edit_autopeca (some 1) 99 .ok none dbVela).response = .redirect .autopecas ∧
    ⟨"Autopeça não encontrada!", "error"⟩ ∈ (edit_autopeca (some 1) 99 .ok none dbVela).flashes ∧
    (delete_autopeca (some 1) 99 .ok none dbVela).db = dbVela ∧
    (delete_autopeca (some 1) 99 .ok none dbVela).response = .redirect .autopecas :=
  C8_missing_id_noop 1 99 .ok none dbVela (by decide)

/-- Evaluation of `movWrite` into an explicit result record, the final flash
expressed as a single conditional. -/
theorem movWrite_eq (u : Nat) (i : Int) (data : String) (q : Int) (t : String)
    (pc : Autopeca) (novo : Int) (fl : List Flash) (db : DB) :
    movWrite u i data q t pc novo fl db =
      ⟨⟨db.usuarios,
          db.autopecas.map (fun p =>
            if (p.idPeca : Int) == i then
              ⟨p.idPeca, p.nomePeca, p.numSerial, novo, p.estoqueMinimo, p.preco,
                p.descricao, p.compatibilidade⟩
            else p),
          db.movimentacoes ++ [⟨u, i, data, q, t⟩], db.nextPecaId⟩,
        fl ++ [if novo < pc.estoqueMinimo then
            ⟨"ALERTA: Estoque da peça \"" ++ pc.nomePeca ++
              "\" está abaixo do mínimo! Estoque atual: " ++ toString novo ++
              ", Mínimo: " ++ toString pc.estoqueMinimo, "warning"⟩
          else ⟨"Movimentação registrada com sucesso!", "success"⟩],
        .redirect .estoque, true⟩ := by
  unfold movWrite
  split <;> rfl

/-- Parse-failure branch of `add_autopeca`: a `ValueError` on any numeric
field flashes the invalid-values message and redirects to the list without
touching the database or the connection factory. -/
theorem add_autopeca_parse_failure (u : Nat) (f : AutopecaForm) (cr : ConnResult)
    (qErr : Option String) (db : DB)
    (h : pyInt? f.estoque = none ∨ pyInt? f.estoque_minimo = none ∨
      pyFloat? f.preco = none) :
    add_autopeca (some u) f cr qErr db =
      ⟨db, [⟨"Valores numéricos inválidos. Verifique estoque e preço.", "error"⟩],
        .redirect .autopecas, false⟩ := by
  unfold add_autopeca
  rcases hE : pyInt? f.estoque with _ | e <;>
    rcases hM : pyInt? f.estoque_minimo with _ | m <;>
      rcases hP : pyFloat? f.preco with _ | p <;>
        simp_all

/-- Parse-failure branch of `update_autopeca`: as for the add route, but the
redirect goes back to the edit form of the same id. -/
theorem update_autopeca_parse_failure (u id : Nat) (f : AutopecaForm)
    (cr : ConnResult) (qErr : Option String) (db : DB)
    (h : pyInt? f.estoque = none ∨ pyInt? f.estoque_minimo = none ∨
      pyFloat? f.preco = none) :
    update_autopeca (some u) id f cr qErr db =
      ⟨db, [⟨"Valores numéricos inválidos!", "error"⟩],
        .redirect (.editAutopeca id), false⟩ := by
  unfold update_autopeca
  rcases hE : pyInt? f.estoque with _ | e <;>
    rcases hM : pyInt? f.estoque_minimo with _ | m <;>
      rcases hP : pyFloat? f.preco with _ | p <;>
        simp_all

/-- C3: on a movement request over an existing part that proceeds to the
write (inbound, or outbound within stock), the persisted stock of every row
matching the part id becomes current + quantity when the submitted direction
upper-cases to ENTRADA and current - quantity for every other direction
string, and the movement record stores the upper-cased direction verbatim —
no direction value is rejected (only the stock guard of the outbound branch
can abort). -/
theorem C3_direction_semantics (u : Nat) (f : MovForm) (now : String) (db : DB)
    (i q : Int) (pc : Autopeca)
    (hi : pyInt? f.id_peca = some i)
    (hq : pyInt? f.quantidade = some q)
    (hfind : db.autopecas.find? (fun p => (p.idPeca : Int) == i) = some pc)
    (hok : pyUpper f.tipo_movimentacao = "ENTRADA" ∨ 0 ≤ pc.estoque - q) :
    (add_movimentacao (some u) f now .ok none db).toOption.map
        (fun r => r.db.autopecas) =
      some (db.autopecas.map (fun p =>
        if (p.idPeca : Int) == i then
          ⟨p.idPeca, p.nomePeca, p.numSerial,
            (if pyUpper f.tipo_movimentacao = "ENTRADA" then pc.estoque + q
             else pc.estoque - q), p.estoqueMinimo, p.preco, p.descricao,
            p.compatibilidade⟩
        else p)) ∧
    (add_movimentacao (some u) f now .ok none db).toOption.map
        (fun r => r.db.movimentacoes) =
      some (db.movimentacoes ++
        [⟨u, i, movData f now, q, pyUpper f.tipo_movimentacao⟩]) := by
  rw [add_movimentacao_write u f now db i q pc hi hq hfind hok, movWrite_eq]
  constructor <;> rfl

/-- C3 witness: an inbound movement of 4 on the stock-10 part stores stock 14
and appends the upper-cased ENTRADA movement record. -/
theorem C3_direction_semantics_witness :
    (add_movimentacao (some 1) ⟨"1", "4", "entrada", none⟩
        "2025-01-02 00:00:00" .ok none dbVela).toOption.map
        (fun r => r.db.autopecas) =
      some (dbVela.autopecas.map (fun p =>
        if (p.idPeca : Int) == 1 then
          ⟨p.idPeca, p.nomePeca, p.numSerial,
            (if pyUpper "entrada" = "ENTRADA" then pecaVela.estoque + 4
             else pecaVela.estoque - 4), p.estoqueMinimo, p.preco, p.descricao,
            p.compatibilidade⟩
        else p)) ∧
    (add_movimentacao (some 1) ⟨"1", "4", "entrada", none⟩
        "2025-01-02 00:00:00" .ok none dbVela).toOption.map
        (fun r => r.db.movimentacoes) =
      some (dbVela.movimentacoes ++
        [⟨1, 1, movData ⟨"1", "4", "entrada", none⟩ "2025-01-02 00:00:00", 4,
          pyUpper "entrada"⟩]) :=
  C3_direction_semantics 1 ⟨"1", "4", "entrada", none⟩ "2025-01-02 00:00:00"
    dbVela 1 4 pecaVela (by rfl) (by rfl) (by rfl) (Or.inl (by rfl))

/-- C6: when a movement is actually written, the single flash emitted is the
warning naming the part, the new quantity and the stored minimum threshold
exactly when the new stock is strictly below that threshold, and the plain
success message otherwise — in particular when the new stock equals the
threshold. -/
theorem C6_threshold_flash (u : Nat) (f : MovForm) (now : String) (db : DB)
    (i q novo : Int) (pc : Autopeca)
    (hi : pyInt? f.id_peca = some i)
    (hq : pyInt? f.quantidade = some q)
    (hfind : db.autopecas.find? (fun p => (p.idPeca : Int) == i) = some pc)
    (hnovo : novo = if pyUpper f.tipo_movimentacao = "ENTRADA" then pc.estoque + q
      else pc.estoque - q)
    (hok : pyUpper f.tipo_movimentacao = "ENTRADA" ∨ 0 ≤ pc.estoque - q) :
    (novo < pc.estoqueMinimo →
      (add_movimentacao (some u) f now .ok none db).toOption.map HResult.flashes =
        some [⟨"ALERTA: Estoque da peça \"" ++ pc.nomePeca ++
          "\" está abaixo do mínimo! Estoque atual: " ++ toString novo ++
          ", Mínimo: " ++ toString pc.estoqueMinimo, "warning"⟩]) ∧
    (pc.estoqueMinimo ≤ novo →
      (add_movimentacao (some u) f now .ok none db).toOption.map HResult.flashes =
        some [⟨"Movimentação registrada com sucesso!", "success"⟩]) := by
  rw [add_movimentacao_write u f now db i q pc hi hq hfind hok, movWrite_eq, ← hnovo]
  constructor
  · intro h
    rw [if_pos h]
    rfl
  · intro h
    rw [if_neg (not_lt.mpr h)]
    rfl

/-- C6 witness: an outbound movement of 8 on the stock-10, minimum-5 part
leaves stock 2 < 5 and flashes the warning naming part, new stock and
minimum. -/
theorem C6_threshold_flash_witness :
    (add_movimentacao (some 1) ⟨"1", "8", "SAIDA", none⟩
        "2025-01-02 00:00:00" .ok none dbVela).toOption.map HResult.flashes =
      some [⟨"ALERTA: Estoque da peça \"" ++ pecaVela.nomePeca ++
        "\" está abaixo do mínimo! Estoque atual: " ++ toString (2 : Int) ++
        ", Mínimo: " ++ toString pecaVela.estoqueMinimo, "warning"⟩] :=
  (C6_threshold_flash 1 ⟨"1", "8", "SAIDA", none⟩ "2025-01-02 00:00:00"
    dbVela 1 8 2 pecaVela (by rfl) (by rfl) (by rfl) (by decide)
    (Or.inr (by decide))).1 (by decide)

/-- C10: whenever the movement is written, the appended record's timestamp is
`movData f now`, which equals the submission time `now` exactly when the
timestamp field is absent or the empty string, and the submitted string
verbatim otherwise. -/
theorem C10_timestamp_defaulting (u : Nat) (f : MovForm) (now : String)
    (db : DB) (i q : Int) (pc : Autopeca)
    (hi : pyInt? f.id_peca = some i)
    (hq : pyInt? f.quantidade = some q)
    (hfind : db.autopecas.find? (fun p => (p.idPeca : Int) == i) = some pc)
    (hok : pyUpper f.tipo_movimentacao = "ENTRADA" ∨ 0 ≤ pc.estoque - q) :
    (add_movimentacao (some u) f now .ok none db).toOption.map
        (fun r => r.db.movimentacoes) =
      some (db.movimentacoes ++
        [⟨u, i, movData f now, q, pyUpper f.tipo_movimentacao⟩]) ∧
    ((f.data = none ∨ f.data = some "") → movData f now = now) ∧
    (∀ d, f.data = some d → d ≠ "" → movData f now = d) := by
  refine ⟨?_, ?_, ?_⟩
  · rw [add_movimentacao_write u f now db i q pc hi hq hfind hok, movWrite_eq]
    rfl
  · rintro (h | h) <;> simp [movData, h]
  · intro d hd hne
    simp [movData, hd, hne]

/-- C10 witness: with the timestamp field absent the record stores the
submission time; instantiated on an inbound movement. -/
theorem C10_timestamp_defaulting_witness :
    (add_movimentacao (some 1) ⟨"1", "4", "ENTRADA", none⟩
        "2025-01-02 00:00:00" .ok none dbVela).toOption.map
        (fun r => r.db.movimentacoes) =
      some (dbVela.movimentacoes ++
        [⟨1, 1, movData ⟨"1", "4", "ENTRADA", none⟩ "2025-01-02 00:00:00", 4,
          pyUpper "ENTRADA"⟩]) ∧
    movData ⟨"1", "4", "ENTRADA", none⟩ "2025-01-02 00:00:00" = "2025-01-02 00:00:00" := by
  have h := C10_timestamp_defaulting 1 ⟨"1", "4", "ENTRADA", none⟩
    "2025-01-02 00:00:00" dbVela 1 4 pecaVela (by rfl) (by rfl) (by rfl)
    (Or.inl (by rfl))
  exact ⟨h.1, h.2.1 (Or.inl rfl)⟩

/-- C5: create and update submissions are validated in the order parse,
stock quantity, minimum threshold, price, each check short-circuiting with
its own flashed error; in every failing case the database is unchanged, the
connection factory is never invoked, and the redirect goes to the list view
for create and to the edit form for update. -/
theorem C5_validation_order (u id : Nat) (f : AutopecaForm) (cr : ConnResult)
    (qErr : Option String) (db : DB) :
    ((pyInt? f.estoque = none ∨ pyInt? f.estoque_minimo = none ∨
        pyFloat? f.preco = none) →
      add_autopeca (some u) f cr qErr db =
        ⟨db, [⟨"Valores numéricos inválidos. Verifique estoque e preço.", "error"⟩],
          .redirect .autopecas, false⟩ ∧
      update_autopeca (some u) id f cr qErr db =
        ⟨db, [⟨"Valores numéricos inválidos!", "error"⟩],
          .redirect (.editAutopeca id), false⟩) ∧
    (∀ e m p, pyInt? f.estoque = some e → pyInt? f.estoque_minimo = some m →
      pyFloat? f.preco = some p →
      ((e < 0 →
        add_autopeca (some u) f cr qErr db =
          ⟨db, [⟨"Estoque não pode ser negativo", "error"⟩],
            .redirect .autopecas, false⟩ ∧
        update_autopeca (some u) id f cr qErr db =
          ⟨db, [⟨"Estoque não pode ser negativo", "error"⟩],
            .redirect (.editAutopeca id), false⟩) ∧
       (0 ≤ e → m < 0 →
        add_autopeca (some u) f cr qErr db =
          ⟨db, [⟨"Estoque mínimo não pode ser negativo", "error"⟩],
            .redirect .autopecas, false⟩ ∧
        update_autopeca (some u) id f cr qErr db =
          ⟨db, [⟨"Estoque mínimo não pode ser negativo", "error"⟩],
            .redirect (.editAutopeca id), false⟩) ∧
       (0 ≤ e → 0 ≤ m → p ≤ 0 →
        add_autopeca (some u) f cr qErr db =
          ⟨db, [⟨"Preço deve ser maior que zero", "error"⟩],
            .redirect .autopecas, false⟩ ∧
        update_autopeca (some u) id f cr qErr db =
          ⟨db, [⟨"Preço deve ser maior que zero", "error"⟩],
            .redirect (.editAutopeca id), false⟩))) := by
  constructor
  · intro h
    exact ⟨add_autopeca_parse_failure u f cr qErr db h,
      update_autopeca_parse_failure u id f cr qErr db h⟩
  · intro e m p hE hM hP
    refine ⟨fun he => ⟨?_, ?_⟩, fun he hm => ⟨?_, ?_⟩, fun he hm hp => ⟨?_, ?_⟩⟩
    · unfold add_autopeca
      simp only [hE, hM, hP]
      rw [if_pos he]
    · unfold update_autopeca
      simp only [hE, hM, hP]
      rw [if_pos he]
    · unfold add_autopeca
      simp only [hE, hM, hP]
      rw [if_neg (not_lt.mpr he), if_pos hm]
    · unfold update_autopeca
      simp only [hE, hM, hP]
      rw [if_neg (not_lt.mpr he), if_pos hm]
    · unfold add_autopeca
      simp only [hE, hM, hP]
      rw [if_neg (not_lt.mpr he), if_neg (not_lt.mpr hm), if_pos hp]
    · unfold update_autopeca
      simp only [hE, hM, hP]
      rw [if_neg (not_lt.mpr he), if_neg (not_lt.mpr hm), if_pos hp]

/-- C5 witness: a create submission with price "0" (and valid stock 5,
minimum 2) is rejected by the price check with the database unchanged and no
connection attempted. -/
theorem C5_validation_order_witness :
    add_autopeca (some 1) ⟨"Farol", "", "SN-003", "", "5", "2", "0"⟩ .ok none dbVela =
      ⟨dbVela, [⟨"Preço deve ser maior que zero", "error"⟩],
        .redirect .autopecas, false⟩ :=
  (((C5_validation_order 1 7 ⟨"Farol", "", "SN-003", "", "5", "2", "0"⟩ .ok none
      dbVela).2 5 2 0 (by rfl) (by rfl) (by with_unfolding_all rfl)).2.2
    (by decide) (by decide) (le_refl 0)).1

/-- C4 counterexample: a movement submission with non-numeric quantity raises
`ValueError` out of the handler (the `int(...)` calls of `add_movimentacao`
are outside any try/except), so the error is fatal to the request rather
than flashed. -/
theorem C4_counterexample :
    add_movimentacao (some 1) ⟨"1", "abc", "ENTRADA", none⟩
        "2025-01-02 00:00:00" .ok none dbFiltro
      = .error (.valueError "abc") := by
  rfl

/-- Mapping a row transformation that keeps stocks non-negative keeps the
whole table non-negative. -/
theorem all_nonneg_map (l : List Autopeca) (g : Autopeca → Autopeca)
    (hg : ∀ a ∈ l, 0 ≤ (g a).estoque) :
    (l.map g).all (fun p => 0 ≤ p.estoque) := by
  rw [List.all_eq_true]
  intro x hx
  rcases List.mem_map.mp hx with ⟨a, ha, rfl⟩
  simpa using hg a ha

/-- `movWrite` keeps every stock non-negative provided the written value is
non-negative. -/
theorem movWrite_all_nonneg (u : Nat) (i : Int) (data : String) (q : Int)
    (t : String) (pc : Autopeca) (novo : Int) (fl : List Flash) (db : DB)
    (hnovo : 0 ≤ novo) (hdb : db.autopecas.all (fun p => 0 ≤ p.estoque)) :
    (movWrite u i data q t pc novo fl db).db.autopecas.all
      (fun p => 0 ≤ p.estoque) := by
  rw [movWrite_eq]
  refine all_nonneg_map _ _ (fun a ha => ?_)
  by_cases h : ((a.idPeca : Int) == i) = true
  · simp only [if_pos h]
    exact hnovo
  · simp only [if_neg h]
    simpa using List.all_eq_true.mp hdb a ha

/-- C1 amended: create and update validate the submitted stock at write time
and never store a negative one, and a movement with a non-negative submitted
quantity keeps every stored stock non-negative; the unamendable part of the
original claim — an inbound movement with a negative submitted quantity —
is the counterexample above. -/
theorem C1_amended_stock_nonneg (sess : Option Nat) (f : AutopecaForm)
    (id : Nat) (mf : MovForm) (now : String) (cr : ConnResult)
    (qErr : Option String) (db : DB)
    (hdb : db.autopecas.all (fun p => 0 ≤ p.estoque)) :
    (add_autopeca sess f cr qErr db).db.autopecas.all (fun p => 0 ≤ p.estoque) ∧
    (update_autopeca sess id f cr qErr db).db.autopecas.all (fun p => 0 ≤ p.estoque) ∧
    (∀ q r, pyInt? mf.quantidade = some q → 0 ≤ q →
      add_movimentacao sess mf now cr qErr db = .ok r →
      r.db.autopecas.all (fun p => 0 ≤ p.estoque)) := by
  refine ⟨?_, ?_, ?_⟩
  · cases sess with
    | none => exact hdb
    | some u =>
      unfold add_autopeca
      rcases hE : pyInt? f.estoque with _ | e <;>
        rcases hM : pyInt? f.estoque_minimo with _ | m <;>
          rcases hP : pyFloat? f.preco with _ | p <;>
            try exact hdb
      dsimp only
      split_ifs with h1 h2 h3
      · exact hdb
      · exact hdb
      · exact hdb
      · rcases cr with _ | er | er
        · rcases qErr with _ | er
          · dsimp only [get_db_connection]
            rw [List.all_append]
            simp only [hdb, List.all_cons, List.all_nil, Bool.and_true,
              Bool.true_and, decide_eq_true_eq]
            omega
          · exact hdb
        · exact hdb
        · exact hdb
  · cases sess with
    | none => exact hdb
    | some u =>
      unfold update_autopeca
      rcases hE : pyInt? f.estoque with _ | e <;>
        rcases hM : pyInt? f.estoque_minimo with _ | m <;>
          rcases hP : pyFloat? f.preco with _ | p <;>
            try exact hdb
      dsimp only
      split_ifs with h1 h2 h3
      · exact hdb
      · exact hdb
      · exact hdb
      · rcases cr with _ | er | er
        · rcases qErr with _ | er
          · dsimp only [get_db_connection]
            refine all_nonneg_map _ _ (fun a ha => ?_)
            by_cases hid : (a.idPeca == id) = true
            · simp only [if_pos hid]
              omega
            · simp only [if_neg hid]
              simpa using List.all_eq_true.mp hdb a ha
          · exact hdb
        · exact hdb
        · exact hdb
  · intro q r hq hq0 heq
    cases sess with
    | none =>
      unfold add_movimentacao at heq
      injection heq with h
      subst h
      exact hdb
    | some u =>
      unfold add_movimentacao at heq
      rcases hI : pyInt? mf.id_peca with _ | i <;> rw [hI] at heq
      · exact absurd heq (by simp)
      rw [hq] at heq
      rcases cr with _ | er | er
      · simp only [get_db_connection] at heq
        rcases qErr with _ | er
        · rcases hF : db.autopecas.find? (fun p => (p.idPeca : Int) == i)
            with _ | pc <;> rw [hF] at heq
          · injection heq with h
            subst h
            exact hdb
          have hpc : 0 ≤ pc.estoque := by
            simpa using List.all_eq_true.mp hdb pc (List.mem_of_find?_eq_some hF)
          dsimp only at heq
          by_cases hdir : pyUpper mf.tipo_movimentacao = "ENTRADA"
          · rw [if_pos hdir] at heq
            injection heq with h
            subst h
            exact movWrite_all_nonneg _ _ _ _ _ _ _ _ _ (by omega) hdb
          · rw [if_neg hdir] at heq
            by_cases hlt : pc.estoque - q < 0
            · rw [if_pos hlt] at heq
              injection heq with h
              subst h
              exact hdb
            · rw [if_neg hlt] at heq
              injection heq with h
              subst h
              exact movWrite_all_nonneg _ _ _ _ _ _ _ _ _ (by omega) hdb
        · injection heq with h
          subst h
          exact hdb
      · simp only [get_db_connection] at heq
        injection heq with h
        subst h
        exact hdb
      · simp only [get_db_connection] at heq
        injection heq with h
        subst h
        exact hdb

/-- C1 amended witness: an inbound movement of quantity 4 on the all
non-negative database keeps every stored stock non-negative. -/
theorem C1_amended_stock_nonneg_witness :
    (HResult.mk
        ⟨[adminUser], [⟨1, "Vela", "SN-002", 14, 5, 10, "", ""⟩],
          [⟨1, 1, "2025-01-02 00:00:00", 4, "ENTRADA"⟩], 2⟩
        [⟨"Movimentação registrada com sucesso!", "success"⟩]
        (.redirect .estoque) true).db.autopecas.all
      (fun p => 0 ≤ p.estoque) :=
  (C1_amended_stock_nonneg (some 1) ⟨"", "", "", "", "", "", ""⟩ 7
      ⟨"1", "4", "ENTRADA", none⟩ "2025-01-02 00:00:00" .ok none dbVela
      (by decide)).2.2 4 _ (by rfl) (by decide) (by rfl)

/-- C4 amended: the create and update part handlers do catch numeric
validation errors before any database interaction and degrade to a flashed
redirect; the movement handler does not — a non-numeric part id or quantity
raises `ValueError` out of the handler (first offending field wins). -/
theorem C4_amended_error_handling (u id : Nat) (f : AutopecaForm) (mf : MovForm)
    (now : String) (cr : ConnResult) (qErr : Option String) (db : DB) :
    ((pyInt? f.estoque = none ∨ pyInt? f.estoque_minimo = none ∨
        pyFloat? f.preco = none) →
      add_autopeca (some u) f cr qErr db =
        ⟨db, [⟨"Valores numéricos inválidos. Verifique estoque e preço.", "error"⟩],
          .redirect .autopecas, false⟩ ∧
      update_autopeca (some u) id f cr qErr db =
        ⟨db, [⟨"Valores numéricos inválidos!", "error"⟩],
          .redirect (.editAutopeca id), false⟩) ∧
    (pyInt? mf.id_peca = none →
      add_movimentacao (some u) mf now cr qErr db =
        .error (.valueError mf.id_peca)) ∧
    (∀ i, pyInt? mf.id_peca = some i → pyInt? mf.quantidade = none →
      add_movimentacao (some u) mf now cr qErr db =
        .error (.valueError mf.quantidade)) := by
  refine ⟨fun h => ⟨add_autopeca_parse_failure u f cr qErr db h,
    update_autopeca_parse_failure u id f cr qErr db h⟩, fun h => ?_,
    fun i hi hq => ?_⟩
  · unfold add_movimentacao
    rw [h]
  · unfold add_movimentacao
    rw [hi, hq]

/-- C4 amended witness: quantity "abc" with a numeric part id makes the
movement handler raise `ValueError` on the quantity. -/
theorem C4_amended_error_handling_witness :
    add_movimentacao (some 1) ⟨"1", "abc", "SAIDA", none⟩
        "2025-01-02 00:00:00" .ok none dbVela =
      .error (.valueError "abc") :=
  (C4_amended_error_handling 1 7 ⟨"", "", "", "", "", "", ""⟩
    ⟨"1", "abc", "SAIDA", none⟩ "2025-01-02 00:00:00" .ok none dbVela).2.2
    1 (by rfl) (by rfl)

end SAEP
